import Mathlib

/-!
Verification development for the Mosquitto MQTT broker turnkey controller
(`src/mosquitto.ts`).  The pure logic of the controller is shallowly embedded:

* the typed configuration object and its merge with documented defaults;
* the rendering of the main configuration file (modelled structurally as a
  list of configuration items, one per generated directive or comment line,
  with the caller-supplied `custom` text kept as an uninterpreted raw block);
* the generated access-control file (list of ACL lines);
* the sequence of side effects performed by `start` up to the subprocess
  launch (an event trace: temporary-directory creation, file writes,
  password-hashing invocations, certificate generation, launch), with the
  fallible external programs abstracted by an oracle;
* the readiness race of `start` (a `setTimeout` rejection vs. a `setInterval`
  poll of the output buffer, combined with JavaScript `Promise.any`
  semantics), including the banner regular expression;
* the `start`/`stop` state machine over the mutable fields of the controller.
-/

namespace MosquittoTurnkey

/-- One entry of the `passwd` configuration list (`MosquittoConfigPasswdEntry`). -/
structure MosquittoConfigPasswdEntry where
  username : String
  password : String
deriving DecidableEq, Repr

/-- The listener protocols admitted by the TypeScript union type. -/
inductive Protocol where
  | mqtt
  | mqtts
  | ws
  | wss
deriving DecidableEq, Repr

/-- One entry of the `listen` configuration list (`MosquittoConfigListenEntry`). -/
structure MosquittoConfigListenEntry where
  protocol : Protocol
  name : Option String
  address : String
  port : Nat
deriving DecidableEq, Repr

/-- The merged configuration (`MosquittoConfig`).  The `auth` field is kept a
plain string, as at JavaScript runtime: the source compares it against the
literals `"builtin"` and `"plugin"` and throws `invalid auth type` otherwise. -/
structure MosquittoConfig where
  native : Bool
  container : String
  auth : String
  persistence : Bool
  acl : String
  passwd : List MosquittoConfigPasswdEntry
  listen : List MosquittoConfigListenEntry
  custom : String
deriving DecidableEq, Repr

/-- A caller-supplied subset of the configuration fields (the `Partial` of the
constructor argument). -/
structure ConfigOverrides where
  native : Option Bool := none
  container : Option String := none
  auth : Option String := none
  persistence : Option Bool := none
  acl : Option String := none
  passwd : Option (List MosquittoConfigPasswdEntry) := none
  listen : Option (List MosquittoConfigListenEntry) := none
  custom : Option String := none

/-- The configuration merge performed by the constructor: every unset field is
filled from the documented default set (object-spread `{...defaults, ...config}`). -/
def mergeConfig (o : ConfigOverrides) : MosquittoConfig where
  native := o.native.getD false
  container := o.container.getD "ghcr.io/rse/mosquitto:2.0.22-20260117"
  auth := o.auth.getD "builtin"
  persistence := o.persistence.getD false
  acl := o.acl.getD ""
  passwd := o.passwd.getD [{ username := "example", password := "example" }]
  listen := o.listen.getD [{ protocol := Protocol.mqtt, name := none, address := "127.0.0.1", port := 1883 }]
  custom := o.custom.getD ""

/-- The fully defaulted configuration (constructor called with no overrides). -/
def defaultConfig : MosquittoConfig := mergeConfig {}

/-  ------------------------------------------------------------------
    Main configuration file rendering.
    The source builds one string by concatenating `textframe` blocks; the
    embedding keeps the block structure as a list of items, one item per
    generated line (directive or comment), with `custom` as a raw block.
    ------------------------------------------------------------------  -/

/-- One line of the generated main configuration file. -/
inductive ConfItem where
  | comment (text : String)
  | directive (name : String) (args : List String)
  | customText (text : String)
deriving DecidableEq, Repr

/-- The standard prolog block (logging and internals stanzas). -/
def confProlog : List ConfItem := [
  ConfItem.comment "logging",
  ConfItem.directive "log_dest" ["stderr"],
  ConfItem.directive "log_type" ["error"],
  ConfItem.directive "log_type" ["warning"],
  ConfItem.directive "log_type" ["notice"],
  ConfItem.directive "log_type" ["information"],
  ConfItem.directive "log_type" ["subscribe"],
  ConfItem.directive "log_type" ["unsubscribe"],
  ConfItem.directive "log_type" ["websockets"],
  ConfItem.directive "log_type" ["debug"],
  ConfItem.directive "websockets_log_level" ["2"],
  ConfItem.directive "connection_messages" ["true"],
  ConfItem.directive "log_timestamp" ["true"],
  ConfItem.directive "log_timestamp_format" ["[%Y-%m-%d %H:%M:%S]"],
  ConfItem.comment "internals",
  ConfItem.directive "sys_interval" ["1"],
  ConfItem.directive "websockets_headers_size" ["2048"]
]

/-- The authentication stanza: `builtin` renders file-based ACL/password
directives, `plugin` renders the plugin-module directives, anything else is
the `invalid auth type` error thrown by the source.  The `builtin` stanza: -/
def confAuthBuiltin : List ConfItem := [
  ConfItem.comment "security (built-in)",
  ConfItem.directive "acl_file" ["./mosquitto-acl.txt"],
  ConfItem.directive "password_file" ["./mosquitto-pwd.txt"],
  ConfItem.directive "allow_anonymous" ["true"]
]

/-- The `plugin` authentication stanza. -/
def confAuthPlugin : List ConfItem := [
  ConfItem.comment "security (plugin-based)",
  ConfItem.directive "plugin" ["/app/libexec/mosquitto-go-auth.so"],
  ConfItem.directive "auth_opt_backends" ["files"],
  ConfItem.directive "auth_opt_files_password_path" ["./mosquitto-pwd.txt"],
  ConfItem.directive "auth_opt_files_acl_path" ["./mosquitto-acl.txt"],
  ConfItem.directive "auth_opt_allow_anonymous" ["true"]
]

/-- The authentication stanza selected by the `auth` value. -/
def confAuth (auth : String) : Except String (List ConfItem) :=
  if auth = "builtin" then Except.ok confAuthBuiltin
  else if auth = "plugin" then Except.ok confAuthPlugin
  else Except.error "invalid auth type"

/-- The persistence stanza (enabled or disabled variant). -/
def confPersistence (persistence : Bool) : List ConfItem :=
  if persistence then [
    ConfItem.comment "persistence",
    ConfItem.directive "persistence" ["true"],
    ConfItem.directive "persistence_location" ["/app/var/mosquitto.d/"],
    ConfItem.directive "persistence_file" ["mosquitto.db"],
    ConfItem.directive "autosave_interval" ["1800"],
    ConfItem.directive "autosave_on_changes" ["false"]
  ] else [
    ConfItem.comment "persistence",
    ConfItem.directive "persistence" ["false"],
    ConfItem.directive "autosave_on_changes" ["false"]
  ]

/-- The custom block: the raw `custom` text is appended verbatim when
non-empty (it is not parsed into directives). -/
def confCustom (custom : String) : List ConfItem :=
  if custom = "" then [] else [ConfItem.customText custom]

/-- Rendering of the protocol name used in the stanza comment. -/
def protoName : Protocol → String
  | Protocol.mqtt => "mqtt"
  | Protocol.mqtts => "mqtts"
  | Protocol.ws => "ws"
  | Protocol.wss => "wss"

/-- The `protocol` directive value: the regex `^mqtts?$` selects `mqtt`, the
regex `^wss?$` selects `websockets`. -/
def protocolDirective : Protocol → String
  | Protocol.mqtt => "mqtt"
  | Protocol.mqtts => "mqtt"
  | Protocol.ws => "websockets"
  | Protocol.wss => "websockets"

/-- Whether a listener entry is one of the two secure variants
(`entry.protocol === "mqtts" || entry.protocol === "wss"`). -/
def isSecure : Protocol → Bool
  | Protocol.mqtts => true
  | Protocol.wss => true
  | _ => false

/-- The per-listener stanza: the bind address is the configured address when
native, the wildcard address otherwise; the secure variants additionally get
the certificate directives. -/
def confListener (native : Bool) (e : MosquittoConfigListenEntry) : List ConfItem :=
  [ ConfItem.comment ("listener for " ++ protoName e.protocol),
    ConfItem.directive "listener" [toString e.port, if native then e.address else "0.0.0.0"],
    ConfItem.directive "max_connections" ["-1"],
    ConfItem.directive "set_tcp_nodelay" ["true"],
    ConfItem.directive "protocol" [protocolDirective e.protocol] ] ++
  (if isSecure e.protocol then
    [ ConfItem.directive "certfile" ["./mosquitto-crt.pem"],
      ConfItem.directive "keyfile" ["./mosquitto-key.pem"],
      ConfItem.directive "require_certificate" ["false"] ]
  else [])

/-- The non-listener portion of the configuration file, in source order:
prolog, authentication, persistence, custom. -/
def confHead (cfg : MosquittoConfig) : Except String (List ConfItem) :=
  match confAuth cfg.auth with
  | Except.error e => Except.error e
  | Except.ok a =>
      Except.ok (confProlog ++ a ++ confPersistence cfg.persistence ++ confCustom cfg.custom)

/-- Whether the `requireTLS` flag ends up set by the listener loop: it is set
exactly when some listener entry is secure. -/
def requireTLS (cfg : MosquittoConfig) : Bool :=
  cfg.listen.any (fun e => isSecure e.protocol)

/-- The complete rendered configuration file, as the item list the source
string is the flattening of. -/
def renderConfItems (cfg : MosquittoConfig) : Except String (List ConfItem) :=
  match confHead cfg with
  | Except.error e => Except.error e
  | Except.ok h => Except.ok (h ++ (cfg.listen.map (confListener cfg.native)).flatten)

/-- Whether an item is a directive with the given name (arguments ignored). -/
def isDirectiveNamed (n : String) : ConfItem → Bool
  | ConfItem.directive m _ => m == n
  | _ => false

/-- Whether the item list contains a directive with the given name. -/
def containsDirective (items : List ConfItem) (n : String) : Bool :=
  items.any (isDirectiveNamed n)

/-  ------------------------------------------------------------------
    Access-control file generation.
    ------------------------------------------------------------------  -/

/-- One line of the generated access-control file. -/
inductive AclLine where
  | comment (text : String)
  | user (username : String)
  | topic (access : String) (t : String)
  | pat (access : String) (t : String)
  | raw (text : String)
deriving DecidableEq, Repr

/-- The shared/anonymous part of the generated default ACL. -/
def aclShared : List AclLine := [
  AclLine.comment "shared/anonymous ACL list",
  AclLine.topic "read" "$SYS/#",
  AclLine.pat "write" "$SYS/broker/connection/%c/state",
  AclLine.pat "read" "peer/%c"
]

/-- The per-account block of the generated default ACL. -/
def aclForUser (u : String) : List AclLine := [
  AclLine.comment "user ACL list",
  AclLine.user u,
  AclLine.topic "readwrite" (u ++ "/#"),
  AclLine.topic "read" (u ++ "/$share/#"),
  AclLine.topic "write" "peer/#"
]

/-- The access-control file: the caller-supplied `acl` string verbatim when
non-empty, else the generated default (shared block, then one block per
`passwd` entry). -/
def genAcl (cfg : MosquittoConfig) : List AclLine :=
  if cfg.acl = "" then
    aclShared ++ (cfg.passwd.map (fun e => aclForUser e.username)).flatten
  else
    [AclLine.raw cfg.acl]

/-- Whether the two given lines occur adjacently (in that order) in the list. -/
def listHasAdj : List AclLine → AclLine → AclLine → Bool
  | a :: b :: rest, x, y =>
      (decide (a = x) && decide (b = y)) || listHasAdj (b :: rest) x y
  | _, _, _ => false

/-  ------------------------------------------------------------------
    The side-effect trace of `start` up to the subprocess launch.
    External programs (`which` lookups, `mosquitto_passwd` runs, the
    certificate generator) are abstracted by an oracle of outcomes.
    ------------------------------------------------------------------  -/

/-- Outcomes of the external collaborators consulted by `start`:
whether a program is found on the path, whether the i-th password-hash
invocation succeeds, and whether certificate generation succeeds. -/
structure Externals where
  programOnPath : String → Bool
  passwdOk : Nat → Bool
  certOk : Bool

/-- The oracle in which every external call succeeds. -/
def extAllOk : Externals where
  programOnPath := fun _ => true
  passwdOk := fun _ => true
  certOk := true

/-- The pre-flight program checks: native mode requires `mosquitto` and
`mosquitto_passwd`, containerized mode requires `docker`; the first missing
program aborts `start` before any file I/O. -/
def ensureProgramsResult (cfg : MosquittoConfig) (ext : Externals) : Except String Unit :=
  if cfg.native then
    if !ext.programOnPath "mosquitto" then Except.error "program \"mosquitto\" not found"
    else if !ext.programOnPath "mosquitto_passwd" then Except.error "program \"mosquitto_passwd\" not found"
    else Except.ok ()
  else
    if !ext.programOnPath "docker" then Except.error "program \"docker\" not found"
    else Except.ok ()

/-- One invocation of the external password-hashing utility, as performed by
the loop over `passwd`: `create` records whether the `-c` (create/truncate)
flag is passed (exactly for index 0), `file` is the password-file path handed
to the utility (the host path in native mode, the in-container mount path in
containerized mode), and `hashAlgo` the `-H` selection. -/
structure PasswdInvocation where
  create : Bool
  file : String
  username : String
  password : String
  hashAlgo : String
deriving DecidableEq, Repr

/-- The literal argument vector handed to `mosquitto_passwd` for one
invocation: `-H <algo> -b [-c] <file> <username> <password>`. -/
def mosquittoPasswdArgv (inv : PasswdInvocation) : List String :=
  ["-H", inv.hashAlgo, "-b"] ++ (if inv.create then ["-c"] else []) ++
    [inv.file, inv.username, inv.password]

/-- The password-file path passed to the hashing utility: the file inside the
temporary directory when native, the container mount path otherwise. -/
def pwdFilePath (cfg : MosquittoConfig) (tmpdir : String) : String :=
  if cfg.native then tmpdir ++ "/mosquitto-pwd.txt" else "/mosquitto/mosquitto-pwd.txt"

/-- One observable side effect of `start` before and at the subprocess
launch. -/
inductive Ev where
  | tmpdirCreate
  | tmpdirCleanup
  | writeConf (items : List ConfItem)
  | writeAcl (lines : List AclLine)
  | writePwd (content : String)
  | execPasswd (inv : PasswdInvocation)
  | writeCert
  | writeKey
  | launch
deriving DecidableEq, Repr

/-- The password-hashing loop (`for (let i = 0; i < passwd.length; i++)`),
indexed from `i` over the remaining entries: each iteration invokes the
utility with the `-c` flag exactly when `i === 0` and awaits it; a failing
invocation aborts `start` with its error. -/
def passwdExecLoop (path : String) (ext : Externals) :
    Nat → List MosquittoConfigPasswdEntry → List Ev × Except String Unit
  | _, [] => ([], Except.ok ())
  | i, e :: rest =>
      let inv : PasswdInvocation :=
        { create := decide (i = 0), file := path,
          username := e.username, password := e.password, hashAlgo := "sha512-pbkdf2" }
      if ext.passwdOk i then
        let r := passwdExecLoop path ext (i + 1) rest
        (Ev.execPasswd inv :: r.1, r.2)
      else
        ([Ev.execPasswd inv], Except.error "mosquitto_passwd failed")

/-- The file-creating events performed unconditionally between the
temporary-directory creation and the password-hashing loop: the
configuration write, the ACL write, and the initial empty write of the
password file. -/
def prepEvs1 (cfg : MosquittoConfig) (items : List ConfItem) : List Ev :=
  [Ev.tmpdirCreate, Ev.writeConf items, Ev.writeAcl (genAcl cfg), Ev.writePwd ""]

/-- The side effects of `start` from the temporary-directory creation up to
the subprocess launch, in source order: create the directory; build the
configuration (the `invalid auth type` error is thrown here, after directory
creation and before any file write); write the configuration, ACL and empty
password files; run the hashing loop; generate the certificate/key pair when
some listener is secure; finally launch the subprocess.  No path of `start`
releases the temporary directory. -/
def startPrepare (cfg : MosquittoConfig) (tmpdir : String) (ext : Externals) :
    List Ev × Except String Unit :=
  match ensureProgramsResult cfg ext with
  | Except.error e => ([], Except.error e)
  | Except.ok () =>
    match renderConfItems cfg with
    | Except.error e => ([Ev.tmpdirCreate], Except.error e)
    | Except.ok items =>
      match passwdExecLoop (pwdFilePath cfg tmpdir) ext 0 cfg.passwd with
      | (levs, Except.error e) => (prepEvs1 cfg items ++ levs, Except.error e)
      | (levs, Except.ok ()) =>
        if requireTLS cfg then
          if ext.certOk then
            (prepEvs1 cfg items ++ levs ++ [Ev.writeCert, Ev.writeKey, Ev.launch], Except.ok ())
          else
            (prepEvs1 cfg items ++ levs, Except.error "certificate generation failed")
        else
          (prepEvs1 cfg items ++ levs ++ [Ev.launch], Except.ok ())

/-- The password-hash invocations recorded in an event trace, in order. -/
def execInvs (evs : List Ev) : List PasswdInvocation :=
  evs.filterMap (fun ev => match ev with
    | Ev.execPasswd inv => some inv
    | _ => none)

/-  ------------------------------------------------------------------
    Readiness detection: the startup-banner pattern and the race between
    the 10-second timeout and the 50 ms poll, with JavaScript
    `Promise.any` semantics.
    ------------------------------------------------------------------  -/

/-- Characters admitted by the `[0-9.]` class of the banner pattern. -/
def isVersionChar (c : Char) : Bool := c.isDigit || c = '.'

/-- Strip a literal prefix from a character list, returning the remainder. -/
def stripLit : List Char → List Char → Option (List Char)
  | [], rest => some rest
  | _ :: _, [] => none
  | p :: ps, c :: cs => if p = c then stripLit ps cs else none

/-- Whether the banner pattern `mosquitto version [0-9.]+ running` matches at
the head of the character list. -/
def bannerAt (l : List Char) : Bool :=
  match stripLit "mosquitto version ".toList l with
  | none => false
  | some r =>
      decide (r.takeWhile isVersionChar ≠ []) &&
      (stripLit " running".toList (r.dropWhile isVersionChar)).isSome

/-- Unanchored search for the banner pattern over a character list. -/
def bannerSearch : List Char → Bool
  | [] => false
  | c :: rest => bannerAt (c :: rest) || bannerSearch rest

/-- The test `output.match(/mosquitto version [0-9.]+ running/s)` of the
readiness poll, as a Boolean on the accumulated output buffer. -/
def bannerMatch (s : String) : Bool := bannerSearch s.data

/-- The settlement state of a JavaScript promise. -/
inductive PromiseState where
  | pending
  | fulfilled
  | rejected (msg : String)
deriving DecidableEq, Repr

/-- `Promise.any` over two promises: it fulfills as soon as either input
fulfills, rejects only when BOTH inputs reject, and otherwise stays
pending. -/
def promiseAny : PromiseState → PromiseState → PromiseState
  | PromiseState.fulfilled, _ => PromiseState.fulfilled
  | _, PromiseState.fulfilled => PromiseState.fulfilled
  | PromiseState.rejected _, PromiseState.rejected _ => PromiseState.rejected "AggregateError"
  | _, _ => PromiseState.pending

/-- The instants (in ms after launch) at which the 50 ms readiness poll runs
before the 10-second timeout fires: ticks 50, 100, ..., 9950.  (The tick due
at 10000 ms loses the tie against the earlier-registered timeout, whose
handler clears the interval first.) -/
def pollTicks : List Nat := (List.range 199).map (fun k => 50 * (k + 1))

/-- The final settlement states of the two racing promises, given which poll
instants see a matching buffer: if some poll tick matches, the poll promise
fulfills and the timeout handler is cleared before firing (timeout promise
stays pending forever); otherwise the timeout fires, rejects, and clears the
interval, leaving the poll promise pending forever. -/
def readinessPromises (matchAt : Nat → Bool) : PromiseState × PromiseState :=
  if pollTicks.any matchAt then
    (PromiseState.pending, PromiseState.fulfilled)
  else
    (PromiseState.rejected "timeout starting Mosquitto", PromiseState.pending)

/-- The settlement state of `Promise.any([timeoutPromise, pollPromise])`, the
value `start` awaits for readiness. -/
def startAwaitOutcome (matchAt : Nat → Bool) : PromiseState :=
  promiseAny (readinessPromises matchAt).1 (readinessPromises matchAt).2

/-  ------------------------------------------------------------------
    The controller state machine (`start` / `logs` / `stop`).
    ------------------------------------------------------------------  -/

/-- The mutable instance fields of the controller, plus the on-disk existence of
the temporary directory (`tmpdirHandle` models `this.tmpdir !== null`,
`tmpdirExists` the directory itself, which only `cleanup()` removes). -/
structure MState where
  config : MosquittoConfig
  tmpdirHandle : Bool
  tmpdirExists : Bool
  started : Bool
  processRunning : Bool
  streamsOpen : Bool
  output : String
deriving DecidableEq, Repr

/-- A freshly constructed controller for the given merged configuration. -/
def initialState (cfg : MosquittoConfig) : MState where
  config := cfg
  tmpdirHandle := false
  tmpdirExists := false
  started := false
  processRunning := false
  streamsOpen := false
  output := ""

/-- The result of a `start` call: fulfilled, rejected with a message, or
never settling (the awaited promise stays pending forever). -/
inductive StartResult where
  | ok
  | err (msg : String)
  | hang
deriving DecidableEq, Repr

/-- The `start` operation: the `already started` guard runs first and throws
before any state change; otherwise the preparation trace runs (its events
determine the directory and process fields), `produced` is whatever output
the launched subprocess appends to the buffer during the readiness window,
and the outcome of awaiting `Promise.any` decides between success, rejection
and hanging forever. -/
def startFull (s : MState) (ext : Externals) (tmpdir : String) (produced : String)
    (matchAt : Nat → Bool) : MState × StartResult :=
  if s.started then (s, StartResult.err "already started")
  else
    let pr := startPrepare s.config tmpdir ext
    let launched := decide (Ev.launch ∈ pr.1)
    let s1 : MState :=
      { s with
        tmpdirHandle := decide (Ev.tmpdirCreate ∈ pr.1),
        tmpdirExists := decide (Ev.tmpdirCreate ∈ pr.1),
        processRunning := launched,
        streamsOpen := launched,
        output := if launched then s.output ++ produced else s.output }
    match pr.2 with
    | Except.error e => (s1, StartResult.err e)
    | Except.ok () =>
      match startAwaitOutcome matchAt with
      | PromiseState.fulfilled => ({ s1 with started := true }, StartResult.ok)
      | PromiseState.rejected m => (s1, StartResult.err m)
      | PromiseState.pending => (s1, StartResult.hang)

/-- The `logs` query: the accumulated output buffer. -/
def logs (s : MState) : String := s.output

/-- One step of the teardown sequence of `stop`. -/
inductive StopStep where
  | killTerm
  | awaitExit
  | clearEscalation
  | destroyStdout
  | destroyStderr
  | cleanupTmpdir
  | clearStarted
deriving DecidableEq, Repr

/-- The state effect of each teardown step: the SIGTERM signal and timer
bookkeeping do not change the instance fields; awaiting the process settles
it; destroying the stdio streams closes them; `tmpdir.cleanup()` removes the
directory (the handle field itself is never nulled); finally the started
flag is cleared.  No step touches the output buffer. -/
def applyStopStep (s : MState) : StopStep → MState
  | StopStep.killTerm => s
  | StopStep.awaitExit => { s with processRunning := false }
  | StopStep.clearEscalation => s
  | StopStep.destroyStdout => { s with streamsOpen := false }
  | StopStep.destroyStderr => { s with streamsOpen := false }
  | StopStep.cleanupTmpdir => { s with tmpdirExists := false }
  | StopStep.clearStarted => { s with started := false }

/-- The teardown sequence of `stop`, in source order. -/
def stopSeq : List StopStep := [
  StopStep.killTerm, StopStep.awaitExit, StopStep.clearEscalation,
  StopStep.destroyStdout, StopStep.destroyStderr,
  StopStep.cleanupTmpdir, StopStep.clearStarted
]

/-- The `stop` operation: the `still not started` guard runs first and throws
before any state change; otherwise the teardown sequence runs to completion
and `stop` resolves (subprocess-side errors are swallowed). -/
def stop (s : MState) : MState × Except String Unit :=
  if s.started then (stopSeq.foldl applyStopStep s, Except.ok ())
  else (s, Except.error "still not started")

/-  ------------------------------------------------------------------
    Concrete instances used by witnesses and counterexamples.
    ------------------------------------------------------------------  -/

/-- An oracle in which every password-hash invocation fails (the external
`mosquitto_passwd` call errors out). -/
def extPasswdFails : Externals where
  programOnPath := fun _ => true
  passwdOk := fun _ => false
  certOk := true

/-- The configuration of claim C6: one `example`/`example` account and an
empty `acl` string. -/
def c6config : MosquittoConfig :=
  mergeConfig { passwd := some [{ username := "example", password := "example" }], acl := some "" }

/-- A merged configuration whose `passwd` list is empty. -/
def cfgEmptyPasswd : MosquittoConfig := mergeConfig { passwd := some [] }

/-- The items of the rendered configuration, or `[]` when rendering errors. -/
def renderedOrEmpty (cfg : MosquittoConfig) : List ConfItem :=
  match renderConfItems cfg with
  | Except.ok l => l
  | Except.error _ => []

/-- A controller state as after a successful `start`. -/
def runningState : MState where
  config := defaultConfig
  tmpdirHandle := true
  tmpdirExists := true
  started := true
  processRunning := true
  streamsOpen := true
  output := "mosquitto version 2.0.22 running\n"

/-  ------------------------------------------------------------------
    Helper lemmas.
    ------------------------------------------------------------------  -/

lemma containsDirective_append (a b : List ConfItem) (n : String) :
    containsDirective (a ++ b) n = (containsDirective a n || containsDirective b n) :=
  List.any_append

lemma passwdExecLoop_events (path : String) (ext : Externals) :
    ∀ (entries : List MosquittoConfigPasswdEntry) (i : Nat) (ev : Ev),
      ev ∈ (passwdExecLoop path ext i entries).1 → ∃ inv, ev = Ev.execPasswd inv := by
  intro entries
  induction entries with
  | nil => intro i ev h; simp [passwdExecLoop] at h
  | cons e rest ih =>
      intro i ev h
      cases hp : ext.passwdOk i with
      | true =>
          simp only [passwdExecLoop, hp, if_true, List.mem_cons] at h
          rcases h with h | h
          · exact ⟨_, h⟩
          · exact ih (i + 1) ev h
      | false =>
          simp [passwdExecLoop, hp] at h
          exact ⟨_, h⟩

lemma passwdExecLoop_ok (path : String) (ext : Externals)
    (hok : ∀ i, ext.passwdOk i = true) :
    ∀ (entries : List MosquittoConfigPasswdEntry) (i : Nat),
      (passwdExecLoop path ext i entries).2 = Except.ok () := by
  intro entries
  induction entries with
  | nil => intro i; rfl
  | cons e rest ih => intro i; simp only [passwdExecLoop, hok i, if_true]; exact ih (i + 1)

lemma startPrepare_no_cleanup (cfg : MosquittoConfig) (tmpdir : String) (ext : Externals) :
    Ev.tmpdirCleanup ∉ (startPrepare cfg tmpdir ext).1 := by
  cases hE : ensureProgramsResult cfg ext with
  | error e1 => simp [startPrepare, hE]
  | ok u =>
    cases u
    cases hR : renderConfItems cfg with
    | error e2 => simp [startPrepare, hE, hR]
    | ok items =>
      cases hL : passwdExecLoop (pwdFilePath cfg tmpdir) ext 0 cfg.passwd with
      | mk levs r =>
        have hnc : Ev.tmpdirCleanup ∉ levs := by
          intro hm
          obtain ⟨inv, hinv⟩ :=
            passwdExecLoop_events (pwdFilePath cfg tmpdir) ext cfg.passwd 0 _
              (by rw [hL]; exact hm)
          exact Ev.noConfusion hinv
        cases r with
        | error e3 => simp [startPrepare, hE, hR, hL, prepEvs1, hnc]
        | ok u2 =>
          cases u2
          cases hT : requireTLS cfg with
          | false => simp [startPrepare, hE, hR, hL, hT, prepEvs1, hnc]
          | true =>
            cases hC : ext.certOk with
            | true => simp [startPrepare, hE, hR, hL, hT, hC, prepEvs1, hnc]
            | false => simp [startPrepare, hE, hR, hL, hT, hC, prepEvs1, hnc]

lemma startPrepare_error_no_launch (cfg : MosquittoConfig) (tmpdir : String)
    (ext : Externals) (e : String)
    (h : (startPrepare cfg tmpdir ext).2 = Except.error e) :
    Ev.launch ∉ (startPrepare cfg tmpdir ext).1 := by
  cases hE : ensureProgramsResult cfg ext with
  | error e1 => simp [startPrepare, hE]
  | ok u =>
    cases u
    cases hR : renderConfItems cfg with
    | error e2 => simp [startPrepare, hE, hR]
    | ok items =>
      cases hL : passwdExecLoop (pwdFilePath cfg tmpdir) ext 0 cfg.passwd with
      | mk levs r =>
        have hnl : Ev.launch ∉ levs := by
          intro hm
          obtain ⟨inv, hinv⟩ :=
            passwdExecLoop_events (pwdFilePath cfg tmpdir) ext cfg.passwd 0 _
              (by rw [hL]; exact hm)
          exact Ev.noConfusion hinv
        cases r with
        | error e3 => simp [startPrepare, hE, hR, hL, prepEvs1, hnl]
        | ok u2 =>
          cases u2
          cases hT : requireTLS cfg with
          | false => exfalso; simp [startPrepare, hE, hR, hL, hT] at h
          | true =>
            cases hC : ext.certOk with
            | true => exfalso; simp [startPrepare, hE, hR, hL, hT, hC] at h
            | false => simp [startPrepare, hE, hR, hL, hT, hC, prepEvs1, hnl]

/-  ------------------------------------------------------------------
    Claim theorems.
    ------------------------------------------------------------------  -/

/-- C1 (code behavior at the failing input): when the accumulated output
buffer never matches the startup banner within the 10-second window (here:
the buffer stays empty), the timeout branch rejects and cancels the poll, so
no readiness-success resolution can occur — but the `Promise.any` the source
awaits only fulfills on a fulfillment and only rejects when ALL inputs
reject, so with the poll promise left forever pending the awaited promise
stays `pending`: `start` hangs instead of rejecting with the timeout error,
as witnessed end to end by the `hang` result of the full `start` model. -/
theorem c1_timeout_path_hangs :
    startAwaitOutcome (fun _ => bannerMatch "") = PromiseState.pending ∧
    startAwaitOutcome (fun _ => bannerMatch "") ≠
      PromiseState.rejected "timeout starting Mosquitto" ∧
    (startFull (initialState defaultConfig) extAllOk "/tmp/mosquitto-c1" ""
      (fun _ => bannerMatch "")).2 = StartResult.hang := by
  refine ⟨by decide, by decide, by decide⟩

/-- C2 (counterexample): with the default configuration and an oracle in
which the password-hash invocation fails, `start` fails after the temporary
working directory was created, yet no release of the directory occurs before
the failure is returned — refuting the claim that every failing `start`
releases the working directory first. -/
theorem c2_no_release_counterexample :
    (startPrepare defaultConfig "/tmp/mosquitto-c2" extPasswdFails).2 =
      Except.error "mosquitto_passwd failed" ∧
    Ev.tmpdirCreate ∈ (startPrepare defaultConfig "/tmp/mosquitto-c2" extPasswdFails).1 ∧
    Ev.tmpdirCleanup ∉ (startPrepare defaultConfig "/tmp/mosquitto-c2" extPasswdFails).1 := by
  refine ⟨rfl, by decide, by decide⟩

/-- C2 (amended): for every execution of `start` that fails (invalid auth
value, password-hash invocation failure, certificate-generation failure),
the failure is returned WITHOUT releasing the ephemeral working directory —
no cleanup is invoked on any `start` path — and no subprocess is orphaned by
these failure paths, because they all precede the launch. -/
theorem c2_failed_start_abandons_workdir (cfg : MosquittoConfig) (tmpdir : String)
    (ext : Externals) (e : String)
    (h : (startPrepare cfg tmpdir ext).2 = Except.error e) :
    Ev.tmpdirCleanup ∉ (startPrepare cfg tmpdir ext).1 ∧
    Ev.launch ∉ (startPrepare cfg tmpdir ext).1 :=
  ⟨startPrepare_no_cleanup cfg tmpdir ext, startPrepare_error_no_launch cfg tmpdir ext e h⟩

/-- C2 (witness): the amended statement applied at the failing input of the
counterexample. -/
theorem c2_failed_start_abandons_workdir_witness :
    Ev.tmpdirCleanup ∉ (startPrepare defaultConfig "/tmp/mosquitto-c2w" extPasswdFails).1 ∧
    Ev.launch ∉ (startPrepare defaultConfig "/tmp/mosquitto-c2w" extPasswdFails).1 :=
  c2_failed_start_abandons_workdir defaultConfig "/tmp/mosquitto-c2w" extPasswdFails
    "mosquitto_passwd failed" rfl

/-- C6: for the configuration with `passwd = [{username := "example",
password := "example"}]` and an empty `acl` string, the generated default
access-control file contains, immediately under the `user example` line, a
`topic readwrite example/#` rule. -/
theorem c6_default_acl_grants_readwrite :
    listHasAdj (genAcl c6config) (AclLine.user "example")
      (AclLine.topic "readwrite" "example/#") = true := by
  decide

/-- C8: calling `start` while the started flag is true fails immediately
with the `already started` usage error and leaves the controller state
unchanged; calling `stop` while the started flag is false fails immediately
with the `still not started` usage error and likewise leaves the state
unchanged. -/
theorem c8_usage_guards (s : MState) (ext : Externals) (tmpdir produced : String)
    (matchAt : Nat → Bool) :
    (s.started = true →
      startFull s ext tmpdir produced matchAt = (s, StartResult.err "already started")) ∧
    (s.started = false → stop s = (s, Except.error "still not started")) := by
  constructor
  · intro h; simp [startFull, h]
  · intro h; simp [stop, h]

/-- C8 (witness): the guards evaluated at concrete states. -/
theorem c8_usage_guards_witness :
    startFull runningState extAllOk "/tmp/mosquitto-c8" "" (fun _ => false) =
      (runningState, StartResult.err "already started") ∧
    stop (initialState defaultConfig) =
      (initialState defaultConfig, Except.error "still not started") :=
  ⟨(c8_usage_guards runningState extAllOk "/tmp/mosquitto-c8" "" (fun _ => false)).1 rfl,
   (c8_usage_guards (initialState defaultConfig) extAllOk "/tmp/mosquitto-c8" ""
      (fun _ => false)).2 rfl⟩

/-- C9: for every started controller, `stop` resolves and leaves the
accumulated output buffer unchanged — `logs` after the whole teardown
sequence returns the same text as `logs` immediately before it (no step of
the teardown truncates or mutates the buffer). -/
theorem c9_stop_preserves_logs (s : MState) (h : s.started = true) :
    logs (stop s).1 = logs s ∧ (stop s).2 = Except.ok () := by
  simp only [stop, h, if_true]
  exact ⟨rfl, trivial⟩

/-- C9 (witness): the preservation evaluated at a concrete started state. -/
theorem c9_stop_preserves_logs_witness :
    logs (stop runningState).1 = logs runningState ∧
    (stop runningState).2 = Except.ok () :=
  c9_stop_preserves_logs runningState rfl

lemma cd_flatten_eq_any (native : Bool) (l : List MosquittoConfigListenEntry) (n : String) :
    containsDirective (l.map (confListener native)).flatten n =
      l.any (fun e => containsDirective (confListener native e) n) := by
  induction l with
  | nil => rfl
  | cons e t ih =>
      rw [List.map_cons, List.flatten_cons, containsDirective_append, ih, List.any_cons]

lemma cdL_acl_file (native : Bool) (e : MosquittoConfigListenEntry) :
    containsDirective (confListener native e) "acl_file" = false := by
  obtain ⟨p, nm, addr, port⟩ := e; cases p <;> rfl

lemma cdL_password_file (native : Bool) (e : MosquittoConfigListenEntry) :
    containsDirective (confListener native e) "password_file" = false := by
  obtain ⟨p, nm, addr, port⟩ := e; cases p <;> rfl

lemma cdL_plugin (native : Bool) (e : MosquittoConfigListenEntry) :
    containsDirective (confListener native e) "plugin" = false := by
  obtain ⟨p, nm, addr, port⟩ := e; cases p <;> rfl

lemma cdL_certfile (native : Bool) (e : MosquittoConfigListenEntry) :
    containsDirective (confListener native e) "certfile" = isSecure e.protocol := by
  obtain ⟨p, nm, addr, port⟩ := e; cases p <;> rfl

lemma cdL_keyfile (native : Bool) (e : MosquittoConfigListenEntry) :
    containsDirective (confListener native e) "keyfile" = isSecure e.protocol := by
  obtain ⟨p, nm, addr, port⟩ := e; cases p <;> rfl

lemma cd_custom (c : String) (n : String) :
    containsDirective (confCustom c) n = false := by
  unfold confCustom; split <;> rfl

lemma cd_flatten_false (native : Bool) (l : List MosquittoConfigListenEntry) (n : String)
    (hn : ∀ e, containsDirective (confListener native e) n = false) :
    containsDirective (l.map (confListener native)).flatten n = false := by
  rw [cd_flatten_eq_any]
  exact List.any_eq_false.mpr (fun e _ => by simp [hn e])

lemma renderConfItems_eq (cfg : MosquittoConfig) (a : List ConfItem)
    (ha : confAuth cfg.auth = Except.ok a) :
    renderConfItems cfg = Except.ok
      (confProlog ++ a ++ confPersistence cfg.persistence ++ confCustom cfg.custom ++
        (cfg.listen.map (confListener cfg.native)).flatten) := by
  unfold renderConfItems confHead
  rw [ha]

/-- C3: for every merged configuration, rendering with `auth = "builtin"`
produces a configuration containing an `acl_file` and a `password_file`
directive and no `plugin` directive; rendering with `auth = "plugin"`
produces a configuration containing a `plugin` directive and neither an
`acl_file` nor a `password_file` directive.  (The raw `custom` text block is
appended verbatim and is not a directive.) -/
theorem c3_auth_directives (cfg : MosquittoConfig) (items : List ConfItem)
    (h : renderConfItems cfg = Except.ok items) :
    (cfg.auth = "builtin" →
      containsDirective items "acl_file" = true ∧
      containsDirective items "password_file" = true ∧
      containsDirective items "plugin" = false) ∧
    (cfg.auth = "plugin" →
      containsDirective items "plugin" = true ∧
      containsDirective items "acl_file" = false ∧
      containsDirective items "password_file" = false) := by
  constructor
  · intro ha
    have hauth : confAuth cfg.auth = Except.ok confAuthBuiltin := by
      rw [ha]; rfl
    rw [renderConfItems_eq cfg confAuthBuiltin hauth] at h
    injection h with h
    subst h
    refine ⟨?_, ?_, ?_⟩
    · simp [containsDirective_append, show containsDirective confAuthBuiltin "acl_file" = true from rfl]
    · simp [containsDirective_append, show containsDirective confAuthBuiltin "password_file" = true from rfl]
    · have hc : containsDirective (confPersistence cfg.persistence) "plugin" = false := by
        cases cfg.persistence <;> rfl
      simp [containsDirective_append, hc, cd_custom,
        cd_flatten_false cfg.native cfg.listen "plugin" (cdL_plugin cfg.native),
        show containsDirective confProlog "plugin" = false from rfl,
        show containsDirective confAuthBuiltin "plugin" = false from rfl]
  · intro ha
    have hauth : confAuth cfg.auth = Except.ok confAuthPlugin := by
      rw [ha]; rfl
    rw [renderConfItems_eq cfg confAuthPlugin hauth] at h
    injection h with h
    subst h
    refine ⟨?_, ?_, ?_⟩
    · simp [containsDirective_append, show containsDirective confAuthPlugin "plugin" = true from rfl]
    · have hc : containsDirective (confPersistence cfg.persistence) "acl_file" = false := by
        cases cfg.persistence <;> rfl
      simp [containsDirective_append, hc, cd_custom,
        cd_flatten_false cfg.native cfg.listen "acl_file" (cdL_acl_file cfg.native),
        show containsDirective confProlog "acl_file" = false from rfl,
        show containsDirective confAuthPlugin "acl_file" = false from rfl]
    · have hc : containsDirective (confPersistence cfg.persistence) "password_file" = false := by
        cases cfg.persistence <;> rfl
      simp [containsDirective_append, hc, cd_custom,
        cd_flatten_false cfg.native cfg.listen "password_file" (cdL_password_file cfg.native),
        show containsDirective confProlog "password_file" = false from rfl,
        show containsDirective confAuthPlugin "password_file" = false from rfl]

/-- C3 (witness): the builtin direction evaluated at the default
configuration (whose `auth` is `builtin`). -/
theorem c3_auth_directives_witness :
    containsDirective (renderedOrEmpty defaultConfig) "acl_file" = true ∧
    containsDirective (renderedOrEmpty defaultConfig) "password_file" = true ∧
    containsDirective (renderedOrEmpty defaultConfig) "plugin" = false :=
  (c3_auth_directives defaultConfig (renderedOrEmpty defaultConfig) rfl).1 rfl

/-- C4: for every merged configuration and every entry of its `listen`
list, the rendered configuration contains a listener stanza for that entry whose
`listener` directive carries the configured port of the entry and, as bind
address, the configured address of the entry when `native` is true and the
wildcard address `0.0.0.0` when `native` is false. -/
theorem c4_listener_bind_address (cfg : MosquittoConfig) (items : List ConfItem)
    (e : MosquittoConfigListenEntry)
    (h : renderConfItems cfg = Except.ok items) (he : e ∈ cfg.listen) :
    (cfg.native = true →
      ConfItem.directive "listener" [toString e.port, e.address] ∈ items) ∧
    (cfg.native = false →
      ConfItem.directive "listener" [toString e.port, "0.0.0.0"] ∈ items) := by
  have hstanza : ∀ native : Bool,
      ConfItem.directive "listener" [toString e.port, if native then e.address else "0.0.0.0"] ∈
        confListener native e := by
    intro native
    simp [confListener]
  have hmem : ∀ it : ConfItem, it ∈ confListener cfg.native e → it ∈ items := by
    intro it hit
    obtain ⟨a, hauth⟩ : ∃ a, confAuth cfg.auth = Except.ok a := by
      unfold renderConfItems confHead at h
      cases hA : confAuth cfg.auth with
      | error msg => rw [hA] at h; exact absurd h (by simp)
      | ok a => exact ⟨a, rfl⟩
    rw [renderConfItems_eq cfg a hauth] at h
    injection h with h
    subst h
    refine List.mem_append_right _ ?_
    exact List.mem_flatten.mpr ⟨confListener cfg.native e, List.mem_map_of_mem _ he, hit⟩
  constructor
  · intro hn
    refine hmem _ ?_
    rw [hn]
    simpa using hstanza true
  · intro hn
    refine hmem _ ?_
    rw [hn]
    simpa using hstanza false

/-- C4 (witness): the containerized direction evaluated at the default
configuration, whose single listener is `mqtt` on `127.0.0.1:1883` and whose
`native` is false, so the stanza binds the wildcard address. -/
theorem c4_listener_bind_address_witness :
    ConfItem.directive "listener" [toString (1883 : Nat), "0.0.0.0"] ∈
      renderedOrEmpty defaultConfig :=
  (c4_listener_bind_address defaultConfig (renderedOrEmpty defaultConfig)
    { protocol := Protocol.mqtt, name := none, address := "127.0.0.1", port := 1883 }
    rfl (by decide)).2 rfl

lemma confAuth_ok_cases (auth : String) (a : List ConfItem)
    (h : confAuth auth = Except.ok a) : a = confAuthBuiltin ∨ a = confAuthPlugin := by
  unfold confAuth at h
  split at h
  · injection h with h; exact Or.inl h.symm
  · split at h
    · injection h with h; exact Or.inr h.symm
    · exact absurd h (by simp)

lemma confAuth_of_valid (auth : String) (h : auth = "builtin" ∨ auth = "plugin") :
    ∃ a, confAuth auth = Except.ok a := by
  rcases h with h | h <;> rw [h]
  · exact ⟨confAuthBuiltin, rfl⟩
  · exact ⟨confAuthPlugin, rfl⟩

lemma renderConfItems_ok_auth (cfg : MosquittoConfig) (items : List ConfItem)
    (h : renderConfItems cfg = Except.ok items) :
    ∃ a, confAuth cfg.auth = Except.ok a := by
  unfold renderConfItems confHead at h
  cases hA : confAuth cfg.auth with
  | error msg => rw [hA] at h; exact absurd h (by simp)
  | ok a => exact ⟨a, rfl⟩

lemma loop_no_ev (path : String) (ext : Externals) (ev : Ev)
    (hne : ∀ inv, ev ≠ Ev.execPasswd inv)
    (entries : List MosquittoConfigPasswdEntry) (i : Nat) :
    ev ∉ (passwdExecLoop path ext i entries).1 := by
  intro hm
  obtain ⟨inv, h⟩ := passwdExecLoop_events path ext entries i ev hm
  exact hne inv h

lemma execInvs_append (a b : List Ev) :
    execInvs (a ++ b) = execInvs a ++ execInvs b :=
  List.filterMap_append a b _

lemma certfile_mem_listener (native : Bool) (e : MosquittoConfigListenEntry) :
    (ConfItem.directive "certfile" ["./mosquitto-crt.pem"] ∈ confListener native e) ↔
      isSecure e.protocol = true := by
  obtain ⟨p, nm, addr, port⟩ := e
  cases p <;> simp [confListener, isSecure]

lemma keyfile_mem_listener (native : Bool) (e : MosquittoConfigListenEntry) :
    (ConfItem.directive "keyfile" ["./mosquitto-key.pem"] ∈ confListener native e) ↔
      isSecure e.protocol = true := by
  obtain ⟨p, nm, addr, port⟩ := e
  cases p <;> simp [confListener, isSecure]

/-- C5: for every merged configuration, the certificate directives appear in
exactly the secure (`mqtts`/`wss`) listener stanzas: each listener stanza
contains the `certfile`/`keyfile` directives if and only if its entry is
secure, and the rendered configuration as a whole contains them exactly when
some listener is secure (`requireTLS`); the certificate/key pair is written
by a successful `start` exactly when `requireTLS` holds; and with no secure
listener a `start` whose external calls succeed completes its preparation
without consulting or producing the certificate files, so their absence
cannot fail a plain-listener-only startup. -/
theorem c5_tls_exactly_secure (cfg : MosquittoConfig) (ext : Externals) (tmpdir : String)
    (items : List ConfItem) (h : renderConfItems cfg = Except.ok items) :
    (∀ e ∈ cfg.listen,
      ((ConfItem.directive "certfile" ["./mosquitto-crt.pem"] ∈ confListener cfg.native e) ↔
        isSecure e.protocol = true) ∧
      ((ConfItem.directive "keyfile" ["./mosquitto-key.pem"] ∈ confListener cfg.native e) ↔
        isSecure e.protocol = true)) ∧
    (containsDirective items "certfile" = requireTLS cfg ∧
     containsDirective items "keyfile" = requireTLS cfg) ∧
    ((startPrepare cfg tmpdir ext).2 = Except.ok () →
      ((Ev.writeCert ∈ (startPrepare cfg tmpdir ext).1 ∧
        Ev.writeKey ∈ (startPrepare cfg tmpdir ext).1) ↔ requireTLS cfg = true)) ∧
    (requireTLS cfg = false → ensureProgramsResult cfg ext = Except.ok () →
      (∀ i, ext.passwdOk i = true) →
      (startPrepare cfg tmpdir ext).2 = Except.ok () ∧
      Ev.writeCert ∉ (startPrepare cfg tmpdir ext).1 ∧
      Ev.writeKey ∉ (startPrepare cfg tmpdir ext).1) := by
  obtain ⟨a, hauth⟩ := renderConfItems_ok_auth cfg items h
  have haCases := confAuth_ok_cases cfg.auth a hauth
  refine ⟨?_, ?_, ?_, ?_⟩
  · intro e he
    exact ⟨certfile_mem_listener cfg.native e, keyfile_mem_listener cfg.native e⟩
  · rw [renderConfItems_eq cfg a hauth] at h
    injection h with h
    subst h
    have hA1 : containsDirective a "certfile" = false := by
      rcases haCases with rfl | rfl <;> rfl
    have hA2 : containsDirective a "keyfile" = false := by
      rcases haCases with rfl | rfl <;> rfl
    have hC1 : containsDirective (confPersistence cfg.persistence) "certfile" = false := by
      cases cfg.persistence <;> rfl
    have hC2 : containsDirective (confPersistence cfg.persistence) "keyfile" = false := by
      cases cfg.persistence <;> rfl
    constructor
    · simp [containsDirective_append, hA1, hC1, cd_custom, cd_flatten_eq_any, cdL_certfile,
        show containsDirective confProlog "certfile" = false from rfl, requireTLS]
    · simp [containsDirective_append, hA2, hC2, cd_custom, cd_flatten_eq_any, cdL_keyfile,
        show containsDirective confProlog "keyfile" = false from rfl, requireTLS]
  · intro hok2
    have hnc : Ev.writeCert ∉ (passwdExecLoop (pwdFilePath cfg tmpdir) ext 0 cfg.passwd).1 :=
      loop_no_ev _ ext _ (fun inv hx => Ev.noConfusion hx) cfg.passwd 0
    have hnk : Ev.writeKey ∉ (passwdExecLoop (pwdFilePath cfg tmpdir) ext 0 cfg.passwd).1 :=
      loop_no_ev _ ext _ (fun inv hx => Ev.noConfusion hx) cfg.passwd 0
    cases hE : ensureProgramsResult cfg ext with
    | error e1 => rw [show (startPrepare cfg tmpdir ext).2 = Except.error e1 by
        simp [startPrepare, hE]] at hok2; exact absurd hok2 (by simp)
    | ok u =>
      cases u
      cases hL : passwdExecLoop (pwdFilePath cfg tmpdir) ext 0 cfg.passwd with
      | mk levs r =>
        rw [hL] at hnc hnk
        cases r with
        | error e3 =>
            rw [show (startPrepare cfg tmpdir ext).2 = Except.error e3 by
              simp [startPrepare, hE, renderConfItems_eq cfg a hauth, hL]] at hok2
            exact absurd hok2 (by simp)
        | ok u2 =>
          cases u2
          cases hT : requireTLS cfg with
          | true =>
            cases hC : ext.certOk with
            | true =>
                simp [startPrepare, hE, renderConfItems_eq cfg a hauth, hL, hT, hC, prepEvs1]
            | false =>
                rw [show (startPrepare cfg tmpdir ext).2 = Except.error "certificate generation failed" by
                  simp [startPrepare, hE, renderConfItems_eq cfg a hauth, hL, hT, hC]] at hok2
                exact absurd hok2 (by simp)
          | false =>
              simp [startPrepare, hE, renderConfItems_eq cfg a hauth, hL, hT, prepEvs1, hnc, hnk]
  · intro hT hprog hok
    have hnc : Ev.writeCert ∉ (passwdExecLoop (pwdFilePath cfg tmpdir) ext 0 cfg.passwd).1 :=
      loop_no_ev _ ext _ (fun inv hx => Ev.noConfusion hx) cfg.passwd 0
    have hnk : Ev.writeKey ∉ (passwdExecLoop (pwdFilePath cfg tmpdir) ext 0 cfg.passwd).1 :=
      loop_no_ev _ ext _ (fun inv hx => Ev.noConfusion hx) cfg.passwd 0
    have hloopok := passwdExecLoop_ok (pwdFilePath cfg tmpdir) ext hok cfg.passwd 0
    cases hL : passwdExecLoop (pwdFilePath cfg tmpdir) ext 0 cfg.passwd with
    | mk levs r =>
      rw [hL] at hnc hnk hloopok
      simp only at hloopok
      subst hloopok
      refine ⟨?_, ?_, ?_⟩ <;>
        simp [startPrepare, hprog, renderConfItems_eq cfg a hauth, hL, hT, prepEvs1, hnc, hnk]

/-- C5 (witness): evaluated at the default configuration, whose single
listener is plain `mqtt`: preparation succeeds with all external calls
succeeding and no certificate or key file is produced. -/
theorem c5_tls_exactly_secure_witness :
    (startPrepare defaultConfig "/tmp/mosquitto-c5" extAllOk).2 = Except.ok () ∧
    Ev.writeCert ∉ (startPrepare defaultConfig "/tmp/mosquitto-c5" extAllOk).1 ∧
    Ev.writeKey ∉ (startPrepare defaultConfig "/tmp/mosquitto-c5" extAllOk).1 :=
  (c5_tls_exactly_secure defaultConfig extAllOk "/tmp/mosquitto-c5"
    (renderedOrEmpty defaultConfig) rfl).2.2.2 rfl rfl (fun _ => rfl)

lemma passwdExecLoop_spec (path : String) (ext : Externals)
    (hok : ∀ i, ext.passwdOk i = true) :
    ∀ (entries : List MosquittoConfigPasswdEntry) (i0 : Nat),
      (execInvs (passwdExecLoop path ext i0 entries).1).length = entries.length ∧
      (∀ k e, entries[k]? = some e →
        (execInvs (passwdExecLoop path ext i0 entries).1)[k]? =
          some ({ create := decide (i0 + k = 0), file := path,
                  username := e.username, password := e.password,
                  hashAlgo := "sha512-pbkdf2" } : PasswdInvocation)) := by
  intro entries
  induction entries with
  | nil =>
      intro i0
      refine ⟨rfl, ?_⟩
      intro k e hk
      simp at hk
  | cons a rest ih =>
      intro i0
      have hih := ih (i0 + 1)
      have hunf : (passwdExecLoop path ext i0 (a :: rest)).1 =
          Ev.execPasswd ({ create := decide (i0 = 0), file := path,
                           username := a.username, password := a.password,
                           hashAlgo := "sha512-pbkdf2" } : PasswdInvocation) ::
            (passwdExecLoop path ext (i0 + 1) rest).1 := by
        simp [passwdExecLoop, hok i0]
      constructor
      · rw [hunf]
        simpa [execInvs] using hih.1
      · intro k e hk
        rw [hunf]
        match k with
        | 0 =>
            have he : a = e := by simpa using hk
            subst he
            simp [execInvs]
        | Nat.succ m =>
            have hk2 : rest[m]? = some e := by simpa using hk
            have := hih.2 m e hk2
            have harith : i0 + 1 + m = i0 + (m + 1) := by omega
            rw [harith] at this
            simpa [execInvs] using this

/-- C7: for every merged configuration with a valid `auth` value, when the
pre-flight program checks and all password-hash invocations succeed, `start`
invokes the external password-hashing utility exactly once per entry of
`passwd`, in list order; the first invocation carries the create/truncate
flag and every later one does not (so it appends); and each invocation is
passed the username of that entry, its plaintext password, the password-file
path, and the strong salted-hash selection `sha512-pbkdf2`. -/
theorem c7_passwd_invocations (cfg : MosquittoConfig) (ext : Externals) (tmpdir : String)
    (hauth : cfg.auth = "builtin" ∨ cfg.auth = "plugin")
    (hprog : ensureProgramsResult cfg ext = Except.ok ())
    (hok : ∀ i, ext.passwdOk i = true) :
    (execInvs (startPrepare cfg tmpdir ext).1).length = cfg.passwd.length ∧
    (∀ k e, cfg.passwd[k]? = some e →
      (execInvs (startPrepare cfg tmpdir ext).1)[k]? =
        some ({ create := decide (k = 0), file := pwdFilePath cfg tmpdir,
                username := e.username, password := e.password,
                hashAlgo := "sha512-pbkdf2" } : PasswdInvocation)) := by
  obtain ⟨a, ha⟩ := confAuth_of_valid cfg.auth hauth
  have hloopok := passwdExecLoop_ok (pwdFilePath cfg tmpdir) ext hok cfg.passwd 0
  have hspec := passwdExecLoop_spec (pwdFilePath cfg tmpdir) ext hok cfg.passwd 0
  cases hL : passwdExecLoop (pwdFilePath cfg tmpdir) ext 0 cfg.passwd with
  | mk levs r =>
    rw [hL] at hloopok hspec
    simp only at hloopok
    subst hloopok
    have htrace : execInvs (startPrepare cfg tmpdir ext).1 = execInvs levs := by
      cases hT : requireTLS cfg with
      | true =>
        cases hC : ext.certOk with
        | true =>
            simp [startPrepare, hprog, renderConfItems_eq cfg a ha, hL, hT, hC,
              execInvs_append, prepEvs1, execInvs]
        | false =>
            simp [startPrepare, hprog, renderConfItems_eq cfg a ha, hL, hT, hC,
              execInvs_append, prepEvs1, execInvs]
      | false =>
          simp [startPrepare, hprog, renderConfItems_eq cfg a ha, hL, hT,
            execInvs_append, prepEvs1, execInvs]
    rw [htrace]
    refine ⟨hspec.1, ?_⟩
    intro k e hk
    have := hspec.2 k e hk
    simpa using this

/-- C7 (witness): the default configuration has the single account
`example`/`example`; the sole invocation carries the create flag, the
container-mount password-file path, the username, the password and the
`sha512-pbkdf2` selection. -/
theorem c7_passwd_invocations_witness :
    (execInvs (startPrepare defaultConfig "/tmp/mosquitto-c7" extAllOk).1).length = 1 ∧
    (execInvs (startPrepare defaultConfig "/tmp/mosquitto-c7" extAllOk).1)[0]? =
      some ({ create := true, file := "/mosquitto/mosquitto-pwd.txt",
              username := "example", password := "example",
              hashAlgo := "sha512-pbkdf2" } : PasswdInvocation) := by
  have h := c7_passwd_invocations defaultConfig extAllOk "/tmp/mosquitto-c7"
    (Or.inl rfl) rfl (fun i => rfl)
  exact ⟨h.1, h.2 0 { username := "example", password := "example" } rfl⟩

/-- The contents of the password-file writes recorded in an event trace. -/
def pwdWrites (evs : List Ev) : List String :=
  evs.filterMap (fun ev => match ev with
    | Ev.writePwd c => some c
    | _ => none)

/-- C10: for every merged configuration with a valid `auth` value whose
`passwd` list is empty (and whose pre-flight program checks succeed),
`start` still writes the credential file — exactly one password-file write,
of empty content, before the hashing loop — performs zero invocations of the
password-hashing utility, and the empty `passwd` list does not by itself
make the credential-file step fail: preparation still succeeds whenever the
certificate step does not fail. -/
theorem c10_empty_passwd (cfg : MosquittoConfig) (ext : Externals) (tmpdir : String)
    (hp : cfg.passwd = [])
    (hprog : ensureProgramsResult cfg ext = Except.ok ())
    (hauth : cfg.auth = "builtin" ∨ cfg.auth = "plugin") :
    pwdWrites (startPrepare cfg tmpdir ext).1 = [""] ∧
    execInvs (startPrepare cfg tmpdir ext).1 = [] ∧
    ((requireTLS cfg = false ∨ ext.certOk = true) →
      (startPrepare cfg tmpdir ext).2 = Except.ok ()) := by
  obtain ⟨a, ha⟩ := confAuth_of_valid cfg.auth hauth
  have hL : passwdExecLoop (pwdFilePath cfg tmpdir) ext 0 cfg.passwd = ([], Except.ok ()) := by
    rw [hp]; rfl
  refine ⟨?_, ?_, ?_⟩
  · cases hT : requireTLS cfg with
    | true =>
      cases hC : ext.certOk with
      | true =>
          simp [startPrepare, hprog, renderConfItems_eq cfg a ha, hL, hT, hC,
            prepEvs1, pwdWrites]
      | false =>
          simp [startPrepare, hprog, renderConfItems_eq cfg a ha, hL, hT, hC,
            prepEvs1, pwdWrites]
    | false =>
        simp [startPrepare, hprog, renderConfItems_eq cfg a ha, hL, hT,
          prepEvs1, pwdWrites]
  · cases hT : requireTLS cfg with
    | true =>
      cases hC : ext.certOk with
      | true =>
          simp [startPrepare, hprog, renderConfItems_eq cfg a ha, hL, hT, hC,
            prepEvs1, execInvs]
      | false =>
          simp [startPrepare, hprog, renderConfItems_eq cfg a ha, hL, hT, hC,
            prepEvs1, execInvs]
    | false =>
        simp [startPrepare, hprog, renderConfItems_eq cfg a ha, hL, hT,
          prepEvs1, execInvs]
  · intro hcert
    cases hT : requireTLS cfg with
    | true =>
      cases hC : ext.certOk with
      | true => simp [startPrepare, hprog, renderConfItems_eq cfg a ha, hL, hT, hC]
      | false =>
          rcases hcert with hcert | hcert
          · rw [hT] at hcert; exact absurd hcert (by simp)
          · rw [hC] at hcert; exact absurd hcert (by simp)
    | false => simp [startPrepare, hprog, renderConfItems_eq cfg a ha, hL, hT]

/-- C10 (witness): evaluated at the merged configuration with an empty
`passwd` override and the all-succeeding oracle. -/
theorem c10_empty_passwd_witness :
    pwdWrites (startPrepare cfgEmptyPasswd "/tmp/mosquitto-c10" extAllOk).1 = [""] ∧
    execInvs (startPrepare cfgEmptyPasswd "/tmp/mosquitto-c10" extAllOk).1 = [] ∧
    (startPrepare cfgEmptyPasswd "/tmp/mosquitto-c10" extAllOk).2 = Except.ok () := by
  have h := c10_empty_passwd cfgEmptyPasswd extAllOk "/tmp/mosquitto-c10"
    rfl rfl (Or.inl rfl)
  exact ⟨h.1, h.2.1, h.2.2 (Or.inl rfl)⟩

end MosquittoTurnkey
